import Mathlib

/-!
Verification of `ts/util/downloadOnboardingStory.ts` (Signal-Desktop).

The workflow is shallowly embedded: every external collaborator
(`window.storage`, `window.textsecure.server`, the attachment-ingestion
pipeline, the message batcher, the clock, the UUID generator, the message
counter) is an explicit oracle in an environment record, and each run of
the two functions `downloadOnboardingStory` and
`continueDownloadingOnboardingStory` is a pure function from environment
and state to an outcome, a final state, and a trace of observable effects.
-/

namespace Onboarding

/-- `ReadStatus` from `ts/messages/MessageReadStatus.ts`. -/
inductive ReadStatus
  | Unread
  | Read
  | Viewed
deriving DecidableEq, Repr

/-- `SeenStatus` from `ts/MessageSeenStatus.ts`. -/
inductive SeenStatus
  | NotApplicable
  | Unseen
  | Seen
deriving DecidableEq, Repr

/-- `IMAGE_JPEG` from `ts/types/MIME.ts`. -/
def IMAGE_JPEG : String := "image/jpeg"

/-- A downloaded image byte buffer; `byteLength` is modelled by `List.length`. -/
abbrev ByteBuf : Type := List Nat

/-- `byteLength` of a buffer. -/
def ByteBuf.byteLength (b : ByteBuf) : Nat := List.length b

/-- The fields of `AttachmentType` that this workflow constructs and passes to
`processNewAttachment` (`contentType`, `data`, `size`); the processed
attachment returned by the pipeline is modelled by the same type. -/
structure Attachment where
  contentType : String
  data : ByteBuf
  size : Nat
deriving DecidableEq, Repr

/-- The onboarding-story manifest `{ version, languages }`; the JS object
`languages` (locale key to filename list) is an association list with
distinct keys, looked up by first match. -/
structure Manifest where
  version : String
  languages : List (String × List String)
deriving DecidableEq, Repr

/-- JS `key in manifest.languages`: is `l` a key of the `languages` object. -/
def Manifest.hasLocale (m : Manifest) (l : String) : Bool :=
  m.languages.any fun p => p.1 = l

/-- JS property access `manifest.languages[l]`: `none` models `undefined`. -/
def Manifest.lookupLang (m : Manifest) (l : String) : Option (List String) :=
  (m.languages.find? fun p => p.1 = l).map Prod.snd

/-- Lines 71-74 of the source: `userLocale in manifest.languages ?
manifest.languages[userLocale] : manifest.languages.en`. -/
def resolveImageFilenames (m : Manifest) (userLocale : String) : Option (List String) :=
  if m.hasLocale userLocale then m.lookupLang userLocale else m.lookupLang "en"

/-- The fields of `MessageAttributesType` that the workflow writes. -/
structure MessageAttributes where
  attachments : List Attachment
  canReplyToStory : Bool
  conversationId : String
  id : String
  readStatus : ReadStatus
  received_at : Nat
  received_at_ms : Nat
  seenStatus : SeenStatus
  sent_at : Nat
  serverTimestamp : Nat
  sourceUuid : Option String
  timestamp : Nat
  type : String
deriving DecidableEq, Repr

/-- The singleton system ("Signal") conversation: the workflow reads its `id`
and its `uuid` attribute (which may be `undefined`). -/
structure Conversation where
  id : String
  uuid : Option String
deriving DecidableEq, Repr

/-- The two `window.storage` keys this workflow reads and writes.
`hasViewedOnboardingStory` is `boolean | undefined`;
`existingOnboardingStoryMessageIds` is `Array<string> | undefined`. -/
structure Storage where
  hasViewedOnboardingStory : Option Bool
  existingOnboardingStoryMessageIds : Option (List String)
deriving DecidableEq, Repr

/-- JS truthiness of a `boolean | undefined` storage value. -/
def truthy : Option Bool → Bool
  | some b => b
  | none => false

/-- Mutable state visible to the workflow: the storage keys and the message
store fed by `saveNewMessageBatcher`. -/
structure St where
  storage : Storage
  messages : List MessageAttributes
deriving DecidableEq, Repr

/-- Observable effects of a run, in order of occurrence. -/
inductive Event
  | storageGet (key : String)
  | cleanupCalled
  | syncJobRun
  | listenerRegistered
  | manifestFetched
  | downloadCalled (version : String) (filenames : Option (List String))
  | messageSaved (m : MessageAttributes)
  | storagePut (key : String)
deriving DecidableEq, Repr

/-- How a run ends: normal return, `strictAssert` failure (which aborts only
the continuation, surfacing as a rejected promise), or an error propagated
uncaught from a collaborator. -/
inductive Outcome
  | ok
  | assertionFailure (msg : String)
  | error (e : String)
deriving DecidableEq, Repr

/-- `window.textsecure.server`: the remote transport, with its two endpoints
`getOnboardingStoryManifest` and `downloadOnboardingStories`. The filename
argument of the latter is `Option` because the workflow may pass it an
`undefined` list (see the missing-locale case). -/
structure Server where
  getOnboardingStoryManifest : Except String Manifest
  downloadOnboardingStories : String → Option (List String) → Except String (List ByteBuf)

/-- The environment of collaborators for one run. Per-call oracles
(`uuids`, `counter`, `now`) are indexed by the call number within the run. -/
structure Env where
  server : Option Server
  locale : String
  processNewAttachment : Attachment → Except String Attachment
  signalConversation : Conversation
  uuids : Nat → String
  counter : Nat → Nat
  now : Nat → Nat
  saveResult : MessageAttributes → Except String Unit

/-- Modelled from the spec: the external cleanup collaborator
`findAndDeleteOnboardingStoryIfExists` (its source is not part of this
repository slice). Per the spec it is the idempotent deletion flow: it reads
`existingOnboardingStoryMessageIds`, and if the list is present it deletes
the listed messages and clears the key (reaching the `DELETED` state); if
nothing exists to delete it does nothing. -/
def findAndDeleteOnboardingStoryIfExists (st : St) : St :=
  match st.storage.existingOnboardingStoryMessageIds with
  | none => st
  | some ids =>
    { storage := { st.storage with existingOnboardingStoryMessageIds := none }
      messages := st.messages.filter fun m => ¬ ids.contains m.id }

/-- Lines 99-120 of the source: synthesize one `StoryMessage` for the
processed attachment at index `index`; `Date.now()` is sampled at each
index (`env.now index`), and `timestamp` is that sample plus the index. -/
def mkStoryMessage (env : Env) (p : Nat × Attachment) : MessageAttributes :=
  let index := p.1
  let attachment := p.2
  let timestamp := env.now index + index
  { attachments := [attachment]
    canReplyToStory := false
    conversationId := env.signalConversation.id
    id := env.uuids index
    readStatus := ReadStatus.Unread
    received_at := env.counter index
    received_at_ms := timestamp
    seenStatus := SeenStatus.Unseen
    sent_at := timestamp
    serverTimestamp := timestamp
    sourceUuid := env.signalConversation.uuid
    timestamp := timestamp
    type := "story" }

/-- `attachments.map((attachment, index) => ...)`: the batch of synthesized
story messages. -/
def buildStoryMessages (env : Env) (attachments : List Attachment) : List MessageAttributes :=
  attachments.enum.map (mkStoryMessage env)

/-- Lines 83-93: `Promise.all(imageBuffers.map(data =>
processNewAttachment({contentType: IMAGE_JPEG, data, size: data.byteLength})))`.
The first ingestion rejection rejects the whole step. -/
def processAll (env : Env) : List ByteBuf → Except String (List Attachment)
  | [] => Except.ok []
  | data :: rest =>
    match env.processNewAttachment
        { contentType := IMAGE_JPEG, data := data, size := data.byteLength } with
    | Except.error e => Except.error e
    | Except.ok a =>
      match processAll env rest with
      | Except.error e => Except.error e
      | Except.ok as => Except.ok (a :: as)

/-- Lines 122-124: `Promise.all(storyMessages.map(message =>
saveNewMessageBatcher.add(message.attributes)))`. Every add is attempted;
messages whose add resolves are durably written even if another add rejects
(the acknowledged partial-write gap); the overall result carries the first
rejection. Returns (first error if any, messages written, trace). -/
def saveAll (env : Env) : List MessageAttributes → Option String × List MessageAttributes × List Event
  | [] => (none, [], [])
  | m :: rest =>
    match env.saveResult m with
    | Except.ok _ =>
      let r := saveAll env rest
      (r.1, m :: r.2.1, Event.messageSaved m :: r.2.2)
    | Except.error e =>
      let r := saveAll env rest
      (some e, r.2.1, r.2.2)

/-- Lines 42-134 of the source: `continueDownloadingOnboardingStory`. -/
def continueDownloadingOnboardingStory (env : Env) (st : St) :
    Outcome × St × List Event :=
  match env.server with
  | none => (Outcome.assertionFailure "server not initialized", st, [])
  | some server =>
    let ev0 := [Event.storageGet "hasViewedOnboardingStory"]
    if truthy st.storage.hasViewedOnboardingStory then
      (Outcome.ok, findAndDeleteOnboardingStoryIfExists st, ev0 ++ [Event.cleanupCalled])
    else
      let ev1 := ev0 ++ [Event.storageGet "existingOnboardingStoryMessageIds"]
      if (st.storage.existingOnboardingStoryMessageIds).isSome then
        (Outcome.ok, st, ev1)
      else
        let userLocale := env.locale
        match server.getOnboardingStoryManifest with
        | Except.error e => (Outcome.error e, st, ev1 ++ [Event.manifestFetched])
        | Except.ok manifest =>
          let ev2 := ev1 ++ [Event.manifestFetched]
          let imageFilenames := resolveImageFilenames manifest userLocale
          match server.downloadOnboardingStories manifest.version imageFilenames with
          | Except.error e =>
            (Outcome.error e, st,
              ev2 ++ [Event.downloadCalled manifest.version imageFilenames])
          | Except.ok imageBuffers =>
            let ev3 := ev2 ++ [Event.downloadCalled manifest.version imageFilenames]
            match processAll env imageBuffers with
            | Except.error e => (Outcome.error e, st, ev3)
            | Except.ok attachments =>
              let storyMessages := buildStoryMessages env attachments
              let saved := saveAll env storyMessages
              let st1 : St := { st with messages := st.messages ++ saved.2.1 }
              match saved.1 with
              | some e => (Outcome.error e, st1, ev3 ++ saved.2.2)
              | none =>
                let ids := some (storyMessages.map MessageAttributes.id)
                let st2 : St :=
                  { st1 with storage :=
                      { st1.storage with existingOnboardingStoryMessageIds := ids } }
                (Outcome.ok, st2,
                  ev3 ++ saved.2.2 ++ [Event.storagePut "existingOnboardingStoryMessageIds"])

/-- Lines 24-40 of the source: `downloadOnboardingStory`. -/
def downloadOnboardingStory (env : Env) (st : St) : Outcome × St × List Event :=
  let ev0 := [Event.storageGet "hasViewedOnboardingStory"]
  if truthy st.storage.hasViewedOnboardingStory then
    (Outcome.ok, findAndDeleteOnboardingStoryIfExists st, ev0 ++ [Event.cleanupCalled])
  else
    (Outcome.ok, st, ev0 ++ [Event.syncJobRun, Event.listenerRegistered])

/-! ### Helper lemmas about the sub-steps -/

theorem saveAll_fst_none (env : Env) :
    ∀ msgs : List MessageAttributes, (saveAll env msgs).1 = none →
      (saveAll env msgs).2.1 = msgs ∧ (saveAll env msgs).2.2 = msgs.map Event.messageSaved := by
  intro msgs
  induction msgs with
  | nil => intro _; exact ⟨rfl, rfl⟩
  | cons m rest ih =>
    intro h
    cases hs : env.saveResult m with
    | ok u =>
      have h2 : (saveAll env rest).1 = none := by
        simpa [saveAll, hs] using h
      have := ih h2
      simp [saveAll, hs, this.1, this.2]
    | error e =>
      exfalso
      simp [saveAll, hs] at h

theorem saveAll_events_mem (env : Env) :
    ∀ (msgs : List MessageAttributes) (e : Event), e ∈ (saveAll env msgs).2.2 →
      ∃ m, m ∈ msgs ∧ e = Event.messageSaved m := by
  intro msgs
  induction msgs with
  | nil => intro e he; simp [saveAll] at he
  | cons m rest ih =>
    intro e he
    cases hs : env.saveResult m with
    | ok u =>
      simp only [saveAll, hs] at he
      rcases List.mem_cons.mp he with he | he
      · exact ⟨m, by simp, he⟩
      · rcases ih e he with ⟨m2, hm2, he2⟩
        exact ⟨m2, by simp [hm2], he2⟩
    | error er =>
      simp only [saveAll, hs] at he
      rcases ih e he with ⟨m2, hm2, he2⟩
      exact ⟨m2, by simp [hm2], he2⟩

/-! ### Branch-reduction lemmas for the continuation -/

theorem run_noServer (env : Env) (st : St) (h : env.server = none) :
    continueDownloadingOnboardingStory env st =
      (Outcome.assertionFailure "server not initialized", st, []) := by
  simp [continueDownloadingOnboardingStory, h]

theorem run_viewed (env : Env) (st : St) (sv : Server)
    (hs : env.server = some sv)
    (hv : truthy st.storage.hasViewedOnboardingStory = true) :
    continueDownloadingOnboardingStory env st =
      (Outcome.ok, findAndDeleteOnboardingStoryIfExists st,
        [Event.storageGet "hasViewedOnboardingStory", Event.cleanupCalled]) := by
  simp [continueDownloadingOnboardingStory, hs, hv]

theorem run_idsPresent (env : Env) (st : St) (sv : Server) (l : List String)
    (hs : env.server = some sv)
    (hv : truthy st.storage.hasViewedOnboardingStory = false)
    (hid : st.storage.existingOnboardingStoryMessageIds = some l) :
    continueDownloadingOnboardingStory env st =
      (Outcome.ok, st,
        [Event.storageGet "hasViewedOnboardingStory",
         Event.storageGet "existingOnboardingStoryMessageIds"]) := by
  simp [continueDownloadingOnboardingStory, hs, hv, hid]

theorem run_manifestError (env : Env) (st : St) (sv : Server) (e : String)
    (hs : env.server = some sv)
    (hv : truthy st.storage.hasViewedOnboardingStory = false)
    (hid : st.storage.existingOnboardingStoryMessageIds = none)
    (hm : sv.getOnboardingStoryManifest = Except.error e) :
    continueDownloadingOnboardingStory env st =
      (Outcome.error e, st,
        [Event.storageGet "hasViewedOnboardingStory",
         Event.storageGet "existingOnboardingStoryMessageIds",
         Event.manifestFetched]) := by
  simp [continueDownloadingOnboardingStory, hs, hv, hid, hm]

theorem run_downloadError (env : Env) (st : St) (sv : Server) (man : Manifest) (e : String)
    (hs : env.server = some sv)
    (hv : truthy st.storage.hasViewedOnboardingStory = false)
    (hid : st.storage.existingOnboardingStoryMessageIds = none)
    (hm : sv.getOnboardingStoryManifest = Except.ok man)
    (hd : sv.downloadOnboardingStories man.version (resolveImageFilenames man env.locale)
        = Except.error e) :
    continueDownloadingOnboardingStory env st =
      (Outcome.error e, st,
        [Event.storageGet "hasViewedOnboardingStory",
         Event.storageGet "existingOnboardingStoryMessageIds",
         Event.manifestFetched,
         Event.downloadCalled man.version (resolveImageFilenames man env.locale)]) := by
  simp [continueDownloadingOnboardingStory, hs, hv, hid, hm, hd]

theorem run_processError (env : Env) (st : St) (sv : Server) (man : Manifest)
    (bufs : List ByteBuf) (e : String)
    (hs : env.server = some sv)
    (hv : truthy st.storage.hasViewedOnboardingStory = false)
    (hid : st.storage.existingOnboardingStoryMessageIds = none)
    (hm : sv.getOnboardingStoryManifest = Except.ok man)
    (hd : sv.downloadOnboardingStories man.version (resolveImageFilenames man env.locale)
        = Except.ok bufs)
    (hp : processAll env bufs = Except.error e) :
    continueDownloadingOnboardingStory env st =
      (Outcome.error e, st,
        [Event.storageGet "hasViewedOnboardingStory",
         Event.storageGet "existingOnboardingStoryMessageIds",
         Event.manifestFetched,
         Event.downloadCalled man.version (resolveImageFilenames man env.locale)]) := by
  simp [continueDownloadingOnboardingStory, hs, hv, hid, hm, hd, hp]

theorem run_saveError (env : Env) (st : St) (sv : Server) (man : Manifest)
    (bufs : List ByteBuf) (atts : List Attachment) (e : String)
    (hs : env.server = some sv)
    (hv : truthy st.storage.hasViewedOnboardingStory = false)
    (hid : st.storage.existingOnboardingStoryMessageIds = none)
    (hm : sv.getOnboardingStoryManifest = Except.ok man)
    (hd : sv.downloadOnboardingStories man.version (resolveImageFilenames man env.locale)
        = Except.ok bufs)
    (hp : processAll env bufs = Except.ok atts)
    (hsa : (saveAll env (buildStoryMessages env atts)).1 = some e) :
    continueDownloadingOnboardingStory env st =
      (Outcome.error e,
        { st with messages := st.messages ++ (saveAll env (buildStoryMessages env atts)).2.1 },
        [Event.storageGet "hasViewedOnboardingStory",
         Event.storageGet "existingOnboardingStoryMessageIds",
         Event.manifestFetched,
         Event.downloadCalled man.version (resolveImageFilenames man env.locale)]
          ++ (saveAll env (buildStoryMessages env atts)).2.2) := by
  simp [continueDownloadingOnboardingStory, hs, hv, hid, hm, hd, hp, hsa]

theorem run_saveDone (env : Env) (st : St) (sv : Server) (man : Manifest)
    (bufs : List ByteBuf) (atts : List Attachment)
    (hs : env.server = some sv)
    (hv : truthy st.storage.hasViewedOnboardingStory = false)
    (hid : st.storage.existingOnboardingStoryMessageIds = none)
    (hm : sv.getOnboardingStoryManifest = Except.ok man)
    (hd : sv.downloadOnboardingStories man.version (resolveImageFilenames man env.locale)
        = Except.ok bufs)
    (hp : processAll env bufs = Except.ok atts)
    (hsa : (saveAll env (buildStoryMessages env atts)).1 = none) :
    continueDownloadingOnboardingStory env st =
      (Outcome.ok,
        { storage := { st.storage with existingOnboardingStoryMessageIds := some ((buildStoryMessages env atts).map MessageAttributes.id) }
          messages := st.messages ++ buildStoryMessages env atts },
        [Event.storageGet "hasViewedOnboardingStory",
         Event.storageGet "existingOnboardingStoryMessageIds",
         Event.manifestFetched,
         Event.downloadCalled man.version (resolveImageFilenames man env.locale)]
          ++ (buildStoryMessages env atts).map Event.messageSaved
          ++ [Event.storagePut "existingOnboardingStoryMessageIds"]) := by
  have h2 := saveAll_fst_none env (buildStoryMessages env atts) hsa
  simp [continueDownloadingOnboardingStory, hs, hv, hid, hm, hd, hp, hsa, h2.1, h2.2]

/-! ### Lemmas about message construction and attachment ingestion -/

theorem buildStoryMessages_map_proj {α : Type} (env : Env) (atts : List Attachment)
    (f : MessageAttributes → α) (g : Nat → α)
    (h : ∀ p : Nat × Attachment, f (mkStoryMessage env p) = g p.1) :
    (buildStoryMessages env atts).map f = (List.range atts.length).map g := by
  unfold buildStoryMessages
  rw [List.map_map]
  have hfg : (f ∘ mkStoryMessage env) = g ∘ Prod.fst := funext fun p => h p
  rw [hfg, ← List.map_map, List.enum_map_fst]

theorem buildStoryMessages_map_timestamp (env : Env) (atts : List Attachment) :
    (buildStoryMessages env atts).map MessageAttributes.timestamp
      = (List.range atts.length).map fun i => env.now i + i :=
  buildStoryMessages_map_proj env atts _ _ fun _ => rfl

theorem buildStoryMessages_map_id (env : Env) (atts : List Attachment) :
    (buildStoryMessages env atts).map MessageAttributes.id
      = (List.range atts.length).map env.uuids :=
  buildStoryMessages_map_proj env atts _ _ fun _ => rfl

theorem buildStoryMessages_getElem? (env : Env) (atts : List Attachment) (i : Nat) :
    (buildStoryMessages env atts)[i]? = (atts[i]?).map fun a => mkStoryMessage env (i, a) := by
  unfold buildStoryMessages
  rw [List.getElem?_map, List.getElem?_enum]
  cases atts[i]? <;> rfl

theorem mem_buildStoryMessages (env : Env) (atts : List Attachment) (m : MessageAttributes)
    (hm : m ∈ buildStoryMessages env atts) :
    ∃ p, p ∈ atts.enum ∧ m = mkStoryMessage env p := by
  rcases List.mem_map.mp hm with ⟨p, hp, hpm⟩
  exact ⟨p, hp, hpm.symm⟩

theorem processAll_ok (env : Env) :
    ∀ (bufs : List ByteBuf) (atts : List Attachment), processAll env bufs = Except.ok atts →
      atts.length = bufs.length ∧
      ∀ (i : Nat) (b : ByteBuf), bufs[i]? = some b →
        ∃ a, atts[i]? = some a ∧
          env.processNewAttachment { contentType := IMAGE_JPEG, data := b, size := b.byteLength }
            = Except.ok a := by
  intro bufs
  induction bufs with
  | nil =>
    intro atts h
    simp only [processAll] at h
    cases h
    exact ⟨rfl, by intro i b hb; simp at hb⟩
  | cons data rest ih =>
    intro atts h
    simp only [processAll] at h
    cases hpa : env.processNewAttachment
        { contentType := IMAGE_JPEG, data := data, size := data.byteLength } with
    | error e => rw [hpa] at h; cases h
    | ok a =>
      rw [hpa] at h
      cases hrest : processAll env rest with
      | error e => rw [hrest] at h; cases h
      | ok as =>
        rw [hrest] at h
        cases h
        rcases ih as hrest with ⟨hlen, hidx⟩
        refine ⟨by simp [hlen], ?_⟩
        intro i b hb
        cases i with
        | zero =>
          simp only [List.getElem?_cons_zero, Option.some.injEq] at hb
          subst hb
          exact ⟨a, by simp, hpa⟩
        | succ n =>
          simp only [List.getElem?_cons_succ] at hb ⊢
          exact hidx n b hb

/-! ### Concrete fixtures for witnesses, counterexamples and scenarios -/

/-- An example attachment (one downloaded JPEG buffer of one byte). -/
def attEx : Attachment := { contentType := IMAGE_JPEG, data := [7], size := 1 }

/-- The manifest of the locale-fallback scenario:
`{languages: {en: [a,b], fr: [c,d]}}`. -/
def manifestEx : Manifest :=
  { version := "v1", languages := [("en", ["a", "b"]), ("fr", ["c", "d"])] }

/-- A concrete already-persisted story message with id `msg-a`. -/
def msgEx : MessageAttributes :=
  { attachments := [attEx]
    canReplyToStory := false
    conversationId := "conv-signal"
    id := "msg-a"
    readStatus := ReadStatus.Unread
    received_at := 1
    received_at_ms := 2
    seenStatus := SeenStatus.Unseen
    sent_at := 2
    serverTimestamp := 2
    sourceUuid := none
    timestamp := 2
    type := "story" }

/-- A healthy remote transport serving manifest version `v1` with
`en: [1.jpg, 2.jpg]` and the two image buffers. -/
def svC6 : Server :=
  { getOnboardingStoryManifest :=
      Except.ok { version := "v1", languages := [("en", ["1.jpg", "2.jpg"])] }
    downloadOnboardingStories := fun v fns =>
      if v = "v1" ∧ fns = some ["1.jpg", "2.jpg"] then Except.ok [[7], [8, 9]]
      else Except.error "bad request" }

/-- The happy-path environment of the end-to-end scenario: locale `en`,
ingestion succeeds unchanged, every batched save resolves, constant clock. -/
def envC6 : Env :=
  { server := some svC6
    locale := "en"
    processNewAttachment := fun a => Except.ok a
    signalConversation := { id := "conv-signal", uuid := some "uuid-signal" }
    uuids := fun n => "msg-" ++ toString n
    counter := fun n => 500 + n
    now := fun _ => 1000
    saveResult := fun _ => Except.ok () }

/-- Fresh state: nothing viewed, nothing downloaded. -/
def st0 : St :=
  { storage := { hasViewedOnboardingStory := none, existingOnboardingStoryMessageIds := none }
    messages := [] }

/-- State with the id-list already present (story downloaded earlier). -/
def stIds : St :=
  { storage :=
      { hasViewedOnboardingStory := none
        existingOnboardingStoryMessageIds := some ["msg-a", "msg-b"] }
    messages := [msgEx] }

/-- State where the story was viewed (flag synced) and the id-list with two
entries is present, with one of the listed messages in the store. -/
def stViewed : St :=
  { storage :=
      { hasViewedOnboardingStory := some true
        existingOnboardingStoryMessageIds := some ["msg-a", "msg-b"] }
    messages := [msgEx] }

/-- Environment whose remote-transport handle is not initialized. -/
def envNone : Env := { envC6 with server := none }

/-- Environment whose clock advances by 2 ms between successive
`Date.now()` calls. -/
def envTick : Env := { envC6 with now := fun i => 100 + 2 * i }

/-- A transport whose manifest fetch rejects. -/
def svManErr : Server :=
  { getOnboardingStoryManifest := Except.error "manifest fetch failed"
    downloadOnboardingStories := fun _ _ => Except.error "unreachable" }

/-- Environment with a failing manifest fetch. -/
def envManErr : Env := { envC6 with server := some svManErr }

/-- A transport whose manifest has a `fr` entry only, and which rejects a
download request whose filename list is `undefined` with a transport-input
error. -/
def svNoLoc : Server :=
  { getOnboardingStoryManifest :=
      Except.ok { version := "v2", languages := [("fr", ["x.jpg"])] }
    downloadOnboardingStories := fun _ fns =>
      match fns with
      | none => Except.error "filenames undefined"
      | some fs => Except.ok (fs.map fun _ => [0]) }

/-- Environment with active locale `de` against `svNoLoc`: neither `de` nor
`en` is a key of the manifest languages. -/
def envNoLoc : Env := { envC6 with server := some svNoLoc, locale := "de" }

/-! ### The claims -/

/-- Claim C1 (amended): once `existingOnboardingStoryMessageIds` is present,
provided the remote transport is initialized and `hasViewedOnboardingStory`
does not read true, the continuation returns right after the presence check:
no new story message, no storage write, all storage keys and the message
store unchanged, and the only effects are the two storage reads. -/
theorem continuation_noop_when_ids_present (env : Env) (st : St) (sv : Server) (l : List String)
    (hs : env.server = some sv)
    (hv : truthy st.storage.hasViewedOnboardingStory = false)
    (hid : st.storage.existingOnboardingStoryMessageIds = some l) :
    continueDownloadingOnboardingStory env st =
      (Outcome.ok, st,
        [Event.storageGet "hasViewedOnboardingStory",
         Event.storageGet "existingOnboardingStoryMessageIds"]) :=
  run_idsPresent env st sv l hs hv hid

/-- Witness for C1 (amended) at a concrete state with the id-list present. -/
theorem continuation_noop_when_ids_present_witness :
    continueDownloadingOnboardingStory envC6 stIds =
      (Outcome.ok, stIds,
        [Event.storageGet "hasViewedOnboardingStory",
         Event.storageGet "existingOnboardingStoryMessageIds"]) :=
  continuation_noop_when_ids_present envC6 stIds svC6 ["msg-a", "msg-b"] rfl rfl rfl

/-- Counterexample to Claim C1 as stated: in a state where the id-list key is
present but `hasViewedOnboardingStory` reads true, the continuation does not
return after the presence check — it never reads the id-list key, invokes the
cleanup collaborator, and the storage state changes (the id-list key is
cleared and the listed message is deleted from the store). -/
theorem continuation_ids_present_counterexample :
    stViewed.storage.existingOnboardingStoryMessageIds = some ["msg-a", "msg-b"]
  ∧ (continueDownloadingOnboardingStory envC6 stViewed).2.2 =
      [Event.storageGet "hasViewedOnboardingStory", Event.cleanupCalled]
  ∧ (continueDownloadingOnboardingStory envC6 stViewed).2.1.storage.existingOnboardingStoryMessageIds
      = none
  ∧ (continueDownloadingOnboardingStory envC6 stViewed).2.1.messages = [] := by
  decide

/-- Claim C2 (amended): when `hasViewedOnboardingStory` reads true, the entry
point always — and the continuation provided the remote transport is
initialized — invokes the cleanup collaborator exactly once and returns:
no sync trigger, no listener registration, no manifest fetch, no download. -/
theorem cleanup_once_when_viewed (env : Env) (st : St) (sv : Server)
    (hs : env.server = some sv)
    (hv : truthy st.storage.hasViewedOnboardingStory = true) :
    downloadOnboardingStory env st =
      (Outcome.ok, findAndDeleteOnboardingStoryIfExists st,
        [Event.storageGet "hasViewedOnboardingStory", Event.cleanupCalled])
  ∧ continueDownloadingOnboardingStory env st =
      (Outcome.ok, findAndDeleteOnboardingStoryIfExists st,
        [Event.storageGet "hasViewedOnboardingStory", Event.cleanupCalled]) :=
  ⟨by simp [downloadOnboardingStory, hv], run_viewed env st sv hs hv⟩

/-- Witness for C2 (amended) at the viewed state with two listed ids. -/
theorem cleanup_once_when_viewed_witness :
    downloadOnboardingStory envC6 stViewed =
      (Outcome.ok, findAndDeleteOnboardingStoryIfExists stViewed,
        [Event.storageGet "hasViewedOnboardingStory", Event.cleanupCalled])
  ∧ continueDownloadingOnboardingStory envC6 stViewed =
      (Outcome.ok, findAndDeleteOnboardingStoryIfExists stViewed,
        [Event.storageGet "hasViewedOnboardingStory", Event.cleanupCalled]) :=
  cleanup_once_when_viewed envC6 stViewed svC6 rfl rfl

/-- Counterexample to Claim C2 as stated: with `hasViewedOnboardingStory`
reading true but the remote-transport handle uninitialized, the continuation
aborts on its assertion with an empty effect trace — the cleanup collaborator
is invoked zero times, not exactly once. -/
theorem cleanup_skipped_without_server_counterexample :
    truthy stViewed.storage.hasViewedOnboardingStory = true
  ∧ (continueDownloadingOnboardingStory envNone stViewed).2.2 = []
  ∧ ((continueDownloadingOnboardingStory envNone stViewed).2.2).count Event.cleanupCalled = 0 := by
  decide

/-- Claim C3: the resolved image filename list is the `manifest.languages`
entry of the active locale when that locale is a key, and the `en` entry
otherwise; in particular for `{languages: {en: [a,b], fr: [c,d]}}` locale
`de` resolves to `[a,b]` and locale `fr` to `[c,d]`. -/
theorem locale_fallback (m : Manifest) (l : String) :
    (m.hasLocale l = true → resolveImageFilenames m l = m.lookupLang l)
  ∧ (m.hasLocale l = false → resolveImageFilenames m l = m.lookupLang "en")
  ∧ resolveImageFilenames manifestEx "de" = some ["a", "b"]
  ∧ resolveImageFilenames manifestEx "fr" = some ["c", "d"] := by
  refine ⟨?_, ?_, by decide, by decide⟩
  · intro h; simp [resolveImageFilenames, h]
  · intro h; simp [resolveImageFilenames, h]

/-- Witness for C3 at the example manifest, in both the key-present and
key-absent cases. -/
theorem locale_fallback_witness :
    resolveImageFilenames manifestEx "fr" = manifestEx.lookupLang "fr"
  ∧ resolveImageFilenames manifestEx "de" = manifestEx.lookupLang "en" :=
  ⟨(locale_fallback manifestEx "fr").1 (by decide),
   (locale_fallback manifestEx "de").2.1 (by decide)⟩

/-- Claim C6: end-to-end scenario — fresh state, manifest `v1` with
`en: [1.jpg, 2.jpg]`, locale `en`: the continuation requests both images,
creates exactly two story messages with `type = story`, `readStatus = Unread`,
`seenStatus = Unseen`, `canReplyToStory = false`, and writes
`existingOnboardingStoryMessageIds` with exactly two entries. -/
theorem end_to_end_scenario :
    (continueDownloadingOnboardingStory envC6 st0).1 = Outcome.ok
  ∧ Event.downloadCalled "v1" (some ["1.jpg", "2.jpg"])
      ∈ (continueDownloadingOnboardingStory envC6 st0).2.2
  ∧ (continueDownloadingOnboardingStory envC6 st0).2.1.messages.length = 2
  ∧ (∀ m ∈ (continueDownloadingOnboardingStory envC6 st0).2.1.messages,
      m.type = "story" ∧ m.readStatus = ReadStatus.Unread
        ∧ m.seenStatus = SeenStatus.Unseen ∧ m.canReplyToStory = false)
  ∧ ((continueDownloadingOnboardingStory envC6 st0).2.1.storage.existingOnboardingStoryMessageIds).map
      List.length = some 2 := by
  decide

/-- Claim C7: with the remote-transport handle uninitialized, the continuation
fails its assertion and does nothing else: no storage key is read, the
cleanup collaborator does not run, no manifest is fetched, no message is
created, and the state is returned unchanged — the failure is a value of the
run (the continuation's rejected promise), not a whole-process abort. -/
theorem assertion_guards_continuation (env : Env) (st : St) (h : env.server = none) :
    continueDownloadingOnboardingStory env st =
      (Outcome.assertionFailure "server not initialized", st, []) :=
  run_noServer env st h

/-- Witness for C7 at the fresh state under the server-less environment. -/
theorem assertion_guards_continuation_witness :
    continueDownloadingOnboardingStory envNone st0 =
      (Outcome.assertionFailure "server not initialized", st0, []) :=
  assertion_guards_continuation envNone st0 rfl

/-- The manifest served by `svC6`. -/
def manC6 : Manifest := { version := "v1", languages := [("en", ["1.jpg", "2.jpg"])] }

/-- The attachments produced by ingesting the two buffers served by `svC6`. -/
def attsC6 : List Attachment :=
  [{ contentType := IMAGE_JPEG, data := [7], size := 1 },
   { contentType := IMAGE_JPEG, data := [8, 9], size := 2 }]

/-- Claim C4 (amended): each synthesized message's timestamp is the clock
sample at its index plus the index; for a non-decreasing clock the batch
timestamps are strictly increasing, hence unique; they equal
`base, base+1, …, base+N-1` when the clock does not advance during the
batch; and the id-list committed by a successful run lists the message ids
in the same index order. -/
theorem story_timestamps_ordering (env : Env) (atts : List Attachment)
    (hmono : ∀ i j : Nat, i ≤ j → env.now i ≤ env.now j) :
    ((buildStoryMessages env atts).map MessageAttributes.timestamp).Pairwise (· < ·)
  ∧ ((buildStoryMessages env atts).map MessageAttributes.timestamp).Nodup
  ∧ ((∀ i : Nat, env.now i = env.now 0) →
      (buildStoryMessages env atts).map MessageAttributes.timestamp
        = (List.range atts.length).map fun i => env.now 0 + i)
  ∧ (∀ (st : St) (sv : Server) (man : Manifest) (bufs : List ByteBuf),
      env.server = some sv →
      truthy st.storage.hasViewedOnboardingStory = false →
      st.storage.existingOnboardingStoryMessageIds = none →
      sv.getOnboardingStoryManifest = Except.ok man →
      sv.downloadOnboardingStories man.version (resolveImageFilenames man env.locale)
        = Except.ok bufs →
      processAll env bufs = Except.ok atts →
      (saveAll env (buildStoryMessages env atts)).1 = none →
      (continueDownloadingOnboardingStory env st).2.1.storage.existingOnboardingStoryMessageIds
        = some ((buildStoryMessages env atts).map MessageAttributes.id)) := by
  have hpair : ((buildStoryMessages env atts).map MessageAttributes.timestamp).Pairwise (· < ·) := by
    rw [buildStoryMessages_map_timestamp]
    refine List.Pairwise.map _ ?_ (List.pairwise_lt_range atts.length)
    intro i j hij
    exact Nat.add_lt_add_of_le_of_lt (hmono i j (Nat.le_of_lt hij)) hij
  refine ⟨hpair, hpair.imp fun h => Nat.ne_of_lt h, ?_, ?_⟩
  · intro hconst
    rw [buildStoryMessages_map_timestamp]
    refine List.map_congr_left ?_
    intro i _
    rw [hconst i]
  · intro st sv man bufs hs hv hid hm hd hp hsa
    rw [run_saveDone env st sv man bufs atts hs hv hid hm hd hp hsa]

/-- Witness for C4 (amended) on the happy-path environment (constant clock). -/
theorem story_timestamps_ordering_witness :
    ((buildStoryMessages envC6 attsC6).map MessageAttributes.timestamp).Pairwise (· < ·)
  ∧ (continueDownloadingOnboardingStory envC6 st0).2.1.storage.existingOnboardingStoryMessageIds
      = some ((buildStoryMessages envC6 attsC6).map MessageAttributes.id) := by
  have h := story_timestamps_ordering envC6 attsC6 fun i j _ => Nat.le_refl 1000
  exact ⟨h.1, h.2.2.2 st0 svC6 manC6 [[7], [8, 9]] rfl rfl rfl rfl rfl rfl (by decide)⟩

/-- Counterexample to Claim C4 as stated: with a clock that advances 2 ms
between the two `Date.now()` calls, the two messages of a successful run get
timestamps 100 and 103 — not `base, base+1` for any single base value. -/
theorem timestamps_single_base_counterexample :
    (continueDownloadingOnboardingStory envTick st0).2.1.messages.map MessageAttributes.timestamp
      = [100, 103]
  ∧ ¬ (continueDownloadingOnboardingStory envTick st0).2.1.messages.map MessageAttributes.timestamp
      = [100, 100 + 1] := by
  decide

/-- Claim C5: the `existingOnboardingStoryMessageIds` put is the only durable
storage write of any continuation run; it happens only in a fully successful
run and is the last effect (hence after every batched message write); any
collaborator failure (manifest fetch, image download, attachment ingestion —
and even a batched-write failure) leaves the storage state unchanged, and
manifest, download and ingestion failures propagate the collaborator's error
uncaught with the whole state untouched. -/
theorem commit_point_and_failure_atomicity (env : Env) (st : St) :
    (∀ k, Event.storagePut k ∈ (continueDownloadingOnboardingStory env st).2.2 →
        k = "existingOnboardingStoryMessageIds"
      ∧ (continueDownloadingOnboardingStory env st).1 = Outcome.ok
      ∧ ((continueDownloadingOnboardingStory env st).2.2).getLast?
          = some (Event.storagePut k))
  ∧ (∀ e, (continueDownloadingOnboardingStory env st).1 = Outcome.error e →
      (continueDownloadingOnboardingStory env st).2.1.storage = st.storage)
  ∧ (∀ (sv : Server) (e : String), env.server = some sv →
      truthy st.storage.hasViewedOnboardingStory = false →
      st.storage.existingOnboardingStoryMessageIds = none →
      sv.getOnboardingStoryManifest = Except.error e →
      continueDownloadingOnboardingStory env st =
        (Outcome.error e, st,
          [Event.storageGet "hasViewedOnboardingStory",
           Event.storageGet "existingOnboardingStoryMessageIds",
           Event.manifestFetched]))
  ∧ (∀ (sv : Server) (man : Manifest) (e : String), env.server = some sv →
      truthy st.storage.hasViewedOnboardingStory = false →
      st.storage.existingOnboardingStoryMessageIds = none →
      sv.getOnboardingStoryManifest = Except.ok man →
      sv.downloadOnboardingStories man.version (resolveImageFilenames man env.locale)
        = Except.error e →
      continueDownloadingOnboardingStory env st =
        (Outcome.error e, st,
          [Event.storageGet "hasViewedOnboardingStory",
           Event.storageGet "existingOnboardingStoryMessageIds",
           Event.manifestFetched,
           Event.downloadCalled man.version (resolveImageFilenames man env.locale)]))
  ∧ (∀ (sv : Server) (man : Manifest) (bufs : List ByteBuf) (e : String),
      env.server = some sv →
      truthy st.storage.hasViewedOnboardingStory = false →
      st.storage.existingOnboardingStoryMessageIds = none →
      sv.getOnboardingStoryManifest = Except.ok man →
      sv.downloadOnboardingStories man.version (resolveImageFilenames man env.locale)
        = Except.ok bufs →
      processAll env bufs = Except.error e →
      continueDownloadingOnboardingStory env st =
        (Outcome.error e, st,
          [Event.storageGet "hasViewedOnboardingStory",
           Event.storageGet "existingOnboardingStoryMessageIds",
           Event.manifestFetched,
           Event.downloadCalled man.version (resolveImageFilenames man env.locale)])) := by
  refine ⟨?_, ?_, ?_, ?_, ?_⟩
  · intro k hk
    rcases hsv : env.server with _ | sv
    · rw [run_noServer env st hsv] at hk; simp at hk
    · cases hv : truthy st.storage.hasViewedOnboardingStory with
      | true => rw [run_viewed env st sv hsv hv] at hk; simp at hk
      | false =>
        cases hid : st.storage.existingOnboardingStoryMessageIds with
        | some l => rw [run_idsPresent env st sv l hsv hv hid] at hk; simp at hk
        | none =>
          cases hm : sv.getOnboardingStoryManifest with
          | error e => rw [run_manifestError env st sv e hsv hv hid hm] at hk; simp at hk
          | ok man =>
            cases hd : sv.downloadOnboardingStories man.version
                (resolveImageFilenames man env.locale) with
            | error e => rw [run_downloadError env st sv man e hsv hv hid hm hd] at hk; simp at hk
            | ok bufs =>
              cases hp : processAll env bufs with
              | error e =>
                rw [run_processError env st sv man bufs e hsv hv hid hm hd hp] at hk; simp at hk
              | ok atts =>
                cases hsa : (saveAll env (buildStoryMessages env atts)).1 with
                | some e =>
                  rw [run_saveError env st sv man bufs atts e hsv hv hid hm hd hp hsa] at hk
                  rcases List.mem_append.mp hk with hk | hk
                  · simp at hk
                  · rcases saveAll_events_mem env _ _ hk with ⟨m, _, hep⟩
                    simp at hep
                | none =>
                  have hr := run_saveDone env st sv man bufs atts hsv hv hid hm hd hp hsa
                  rw [hr] at hk
                  have hkey : k = "existingOnboardingStoryMessageIds" := by
                    rcases List.mem_append.mp hk with hk2 | hk2
                    · rcases List.mem_append.mp hk2 with hk3 | hk3
                      · simp at hk3
                      · rcases List.mem_map.mp hk3 with ⟨m, _, hep⟩
                        simp at hep
                    · simpa using hk2
                  subst hkey
                  rw [hr]
                  exact ⟨rfl, rfl, by rw [List.getLast?_concat]⟩
  · intro e he
    rcases hsv : env.server with _ | sv
    · rw [run_noServer env st hsv] at he; simp at he
    · cases hv : truthy st.storage.hasViewedOnboardingStory with
      | true => rw [run_viewed env st sv hsv hv] at he; simp at he
      | false =>
        cases hid : st.storage.existingOnboardingStoryMessageIds with
        | some l => rw [run_idsPresent env st sv l hsv hv hid] at he; simp at he
        | none =>
          cases hm : sv.getOnboardingStoryManifest with
          | error e2 => rw [run_manifestError env st sv e2 hsv hv hid hm]
          | ok man =>
            cases hd : sv.downloadOnboardingStories man.version
                (resolveImageFilenames man env.locale) with
            | error e2 => rw [run_downloadError env st sv man e2 hsv hv hid hm hd]
            | ok bufs =>
              cases hp : processAll env bufs with
              | error e2 => rw [run_processError env st sv man bufs e2 hsv hv hid hm hd hp]
              | ok atts =>
                cases hsa : (saveAll env (buildStoryMessages env atts)).1 with
                | some e2 => rw [run_saveError env st sv man bufs atts e2 hsv hv hid hm hd hp hsa]
                | none =>
                  rw [run_saveDone env st sv man bufs atts hsv hv hid hm hd hp hsa] at he
                  simp at he
  · intro sv e hs hv hid hm
    exact run_manifestError env st sv e hs hv hid hm
  · intro sv man e hs hv hid hm hd
    exact run_downloadError env st sv man e hs hv hid hm hd
  · intro sv man bufs e hs hv hid hm hd hp
    exact run_processError env st sv man bufs e hs hv hid hm hd hp

/-- Witness for C5 at a concrete failing manifest fetch: the collaborator
error propagates and storage is untouched (the id-list key stays unset). -/
theorem commit_point_and_failure_atomicity_witness :
    continueDownloadingOnboardingStory envManErr st0 =
      (Outcome.error "manifest fetch failed", st0,
        [Event.storageGet "hasViewedOnboardingStory",
         Event.storageGet "existingOnboardingStoryMessageIds",
         Event.manifestFetched]) :=
  (commit_point_and_failure_atomicity envManErr st0).2.2.1 svManErr "manifest fetch failed"
    rfl rfl rfl rfl

/-- Claim C8: when neither the active locale nor `en` is a key of the
manifest languages, the workflow performs no guard of its own: it resolves
the filename list to `undefined` and passes it straight to the
image-download collaborator, whose transport-input error is what surfaces. -/
theorem missing_locale_passthrough (env : Env) (st : St) (sv : Server) (man : Manifest)
    (e : String)
    (hs : env.server = some sv)
    (hv : truthy st.storage.hasViewedOnboardingStory = false)
    (hid : st.storage.existingOnboardingStoryMessageIds = none)
    (hm : sv.getOnboardingStoryManifest = Except.ok man)
    (hl : man.hasLocale env.locale = false)
    (hen : man.lookupLang "en" = none)
    (hd : sv.downloadOnboardingStories man.version none = Except.error e) :
    resolveImageFilenames man env.locale = none
  ∧ continueDownloadingOnboardingStory env st =
      (Outcome.error e, st,
        [Event.storageGet "hasViewedOnboardingStory",
         Event.storageGet "existingOnboardingStoryMessageIds",
         Event.manifestFetched,
         Event.downloadCalled man.version none]) := by
  have hres : resolveImageFilenames man env.locale = none := by
    simp [resolveImageFilenames, hl, hen]
  refine ⟨hres, ?_⟩
  have hrun := run_downloadError env st sv man e hs hv hid hm (by rw [hres]; exact hd)
  rw [hres] at hrun
  exact hrun

/-- Witness for C8: locale `de` against a manifest with only an `fr` entry;
the download collaborator receives `undefined` filenames and its
transport-input error surfaces. -/
theorem missing_locale_passthrough_witness :
    resolveImageFilenames { version := "v2", languages := [("fr", ["x.jpg"])] } "de" = none
  ∧ continueDownloadingOnboardingStory envNoLoc st0 =
      (Outcome.error "filenames undefined", st0,
        [Event.storageGet "hasViewedOnboardingStory",
         Event.storageGet "existingOnboardingStoryMessageIds",
         Event.manifestFetched,
         Event.downloadCalled "v2" none]) :=
  missing_locale_passthrough envNoLoc st0 svNoLoc
    { version := "v2", languages := [("fr", ["x.jpg"])] } "filenames undefined"
    rfl rfl rfl rfl (by decide) (by decide) rfl

/-- Claim C9: every synthesized story message has `sent_at`,
`serverTimestamp` and `received_at_ms` all equal to its `timestamp`. -/
theorem story_time_fields_agree (env : Env) (atts : List Attachment) (m : MessageAttributes)
    (hm : m ∈ buildStoryMessages env atts) :
    m.sent_at = m.timestamp ∧ m.serverTimestamp = m.timestamp
      ∧ m.received_at_ms = m.timestamp := by
  rcases mem_buildStoryMessages env atts m hm with ⟨p, _, hpm⟩
  subst hpm
  exact ⟨rfl, rfl, rfl⟩

/-- Witness for C9 at a concrete one-attachment batch. -/
theorem story_time_fields_agree_witness :
    (mkStoryMessage envC6 (0, attEx)).sent_at = (mkStoryMessage envC6 (0, attEx)).timestamp
  ∧ (mkStoryMessage envC6 (0, attEx)).serverTimestamp
      = (mkStoryMessage envC6 (0, attEx)).timestamp
  ∧ (mkStoryMessage envC6 (0, attEx)).received_at_ms
      = (mkStoryMessage envC6 (0, attEx)).timestamp :=
  story_time_fields_agree envC6 [attEx] (mkStoryMessage envC6 (0, attEx)) (by decide)

/-- Claim C10: ingestion preserves length and index (each processed
attachment at index `i` comes from the buffer at index `i`), each
synthesized message carries exactly the one processed attachment of its
index, and every message in the batch is attributed to the singleton signal
conversation (`conversationId` its id, `sourceUuid` its uuid). -/
theorem batch_attribution (env : Env) (bufs : List ByteBuf) (atts : List Attachment)
    (hp : processAll env bufs = Except.ok atts) :
    atts.length = bufs.length
  ∧ (∀ (i : Nat) (b : ByteBuf), bufs[i]? = some b →
      ∃ a, atts[i]? = some a ∧
        env.processNewAttachment { contentType := IMAGE_JPEG, data := b, size := b.byteLength }
          = Except.ok a)
  ∧ (∀ i : Nat, ((buildStoryMessages env atts)[i]?).map MessageAttributes.attachments
        = (atts[i]?).map fun a => [a])
  ∧ (∀ m ∈ buildStoryMessages env atts,
      m.conversationId = env.signalConversation.id
        ∧ m.sourceUuid = env.signalConversation.uuid) := by
  rcases processAll_ok env bufs atts hp with ⟨hlen, hidx⟩
  refine ⟨hlen, hidx, ?_, ?_⟩
  · intro i
    rw [buildStoryMessages_getElem?]
    cases atts[i]? <;> rfl
  · intro m hm
    rcases mem_buildStoryMessages env atts m hm with ⟨p, _, hpm⟩
    subst hpm
    exact ⟨rfl, rfl⟩

/-- Witness for C10 on the two-buffer happy path. -/
theorem batch_attribution_witness :
    attsC6.length = ([[7], [8, 9]] : List ByteBuf).length
  ∧ ((buildStoryMessages envC6 attsC6)[0]?).map MessageAttributes.attachments
      = (attsC6[0]?).map fun a => [a] := by
  have h := batch_attribution envC6 [[7], [8, 9]] attsC6 rfl
  exact ⟨h.1, h.2.2.1 0⟩

end Onboarding
